import Mathlib

/-!
Verification of the `/analyze` request pipeline of the resume-analyzer
backend (src/server.js): multer upload gate (MIME filter and 10 MiB size
limit), PDF text extraction, empty-text guard, fixed-schema remote model
call, JSON parse, and the surrounding try/catch error mapping.

The three external collaborators (PDF text extraction, the remote
generative model, and JSON.parse) are modelled as explicit fallible
functions supplied to the pipeline, exactly as the spec directs
("injectable capability"): `extractText`, `generateContent`, `jsonParse`.
-/

/-- A JSON value, as produced by JSON.parse and sent in response bodies. -/
inductive Json where
  | null : Json
  | bool (b : Bool) : Json
  | num (n : Int) : Json
  | str (s : String) : Json
  | arr (xs : List Json) : Json
  | obj (fields : List (String × Json)) : Json

/-- Look a key up in a JSON object; `none` on non-objects or missing keys. -/
def Json.lookup : Json → String → Option Json
  | .obj fields, k => fields.lookup k
  | _, _ => none

/-- Whether a JSON value is an object carrying the given key. -/
def Json.hasKey (j : Json) (k : String) : Bool :=
  (j.lookup k).isSome

/-- The keys of a JSON object, in declaration order. -/
def Json.keys : Json → List String
  | .obj fields => fields.map Prod.fst
  | _ => []

/-- An uploaded file as multer's memory storage hands it to the handler:
the declared MIME type from the multipart part, and the buffered bytes.
Memory storage sets `file.size` to the buffer length. -/
structure UploadedFile where
  mimetype : String
  buffer : List Nat

/-- `file.size` under multer memory storage: the byte length of the buffer. -/
def UploadedFile.size (f : UploadedFile) : Nat :=
  f.buffer.length

/-- `limits.fileSize` from the multer configuration: 10 * 1024 * 1024 bytes. -/
def fileSizeLimit : Nat := 10 * 1024 * 1024

/-- The result object of `parser.getText()`: its `text` property may be a
string, or absent/null/undefined (modelled as `none`). -/
structure PdfData where
  text : Option String

/-- JavaScript's `String.prototype.trim`: remove leading and trailing
whitespace characters. -/
def jsTrim (s : String) : String :=
  ⟨((s.data.dropWhile Char.isWhitespace).reverse.dropWhile Char.isWhitespace).reverse⟩

/-- The request object passed to `ai.models.generateContent` in the handler
(src/server.js lines 86-100): model name, the extracted resume text as the
sole user message, the fixed system instruction, and the response
configuration forcing JSON output against the fixed schema. -/
structure GenerateRequest where
  model : String
  userText : String
  systemInstruction : String
  responseMimeType : String
  responseSchema : Json

/-- The fixed system instruction string of the generateContent call. -/
def geminiSystemInstruction : String :=
  "You are an expert resume analyzer. Evaluate the provided resume text for structure, formatting, and relevant keywords. Crucially, calculate an Applicant Tracking System (ATS) compatibility score out of 100 based on the resume's clarity, sectioning, keyword density, and formatting. You MUST return your entire response as a single, valid JSON object strictly adhering to the defined schema. Do NOT include any introductory, explanatory, or concluding text outside of the JSON."

/-- `resumeAnalysisSchema` from src/server.js lines 32-60: the process-wide
constant JSON schema of the model's required output. -/
def resumeAnalysisSchema : Json :=
  .obj [
    ("type", .str "OBJECT"),
    ("properties", .obj [
      ("ats_score", .obj [
        ("type", .str "NUMBER"),
        ("description", .str "The Applicant Tracking System (ATS) compatibility score as a number between 0 and 100, where 100 is perfect compatibility.")]),
      ("structure", .obj [
        ("type", .str "STRING"),
        ("description", .str "An evaluation of the resume's logical organization (e.g., clarity of sections, flow, use of headers).")]),
      ("format", .obj [
        ("type", .str "STRING"),
        ("description", .str "A critique of the visual presentation, layout, and readability (e.g., font choice, white space, consistency).")]),
      ("keywords", .obj [
        ("type", .str "ARRAY"),
        ("description", .str "A list of the top 5-10 relevant technical and soft skills/keywords found in the resume."),
        ("items", .obj [("type", .str "STRING")])]),
      ("suggestions", .obj [
        ("type", .str "ARRAY"),
        ("description", .str "Specific, actionable, and prioritized suggestions for improving the resume's content and presentation."),
        ("items", .obj [("type", .str "STRING")])])]),
    ("propertyOrdering", .arr [
      .str "ats_score", .str "structure", .str "format",
      .str "keywords", .str "suggestions"])]

/-- The generateContent request the handler builds for a given extracted
resume text (src/server.js lines 86-100). -/
def mkGenerateRequest (resumeText : String) : GenerateRequest :=
  { model := "gemini-2.5-flash"
    userText := resumeText
    systemInstruction := geminiSystemInstruction
    responseMimeType := "application/json"
    responseSchema := resumeAnalysisSchema }

/-- The external collaborators of the pipeline, as fallible functions:
PDF text extraction (`new PDFParse({data: buffer}); parser.getText()`),
the remote model call (`ai.models.generateContent`, whose `.text` is the
returned string), and `JSON.parse`. A thrown error is `.error msg` with
the error's message. -/
structure Collaborators where
  extractText : List Nat → Except String PdfData
  generateContent : GenerateRequest → Except String String
  jsonParse : String → Except String Json

/-- An HTTP response: status code and JSON body. -/
structure HttpResponse where
  status : Nat
  body : Json

/-- Which collaborators a request's handling invoked: whether extraction
ran, and the generateContent request sent to the remote model, if any. -/
structure Trace where
  extractionInvoked : Bool
  remoteRequest : Option GenerateRequest

/-- `error.message || "An internal server error occurred during analysis."`
from the catch block (src/server.js line 116): the empty string is falsy
in JavaScript, so it falls back to the default message. -/
def errorMessage (e : String) : String :=
  if e = "" then "An internal server error occurred during analysis." else e

/-- The `/analyze` handler body (src/server.js lines 64-118), run on the
file multer delivered (`req.file`; `none` when no file field was present):
the no-file guard, extraction, the `(pdfData.text || "").trim()` coercion
and empty-text guard, the remote call, JSON.parse, the 200 response, and
the catch block mapping any thrown error to a 500 with its message. -/
def analyzeHandler (c : Collaborators) : Option UploadedFile → HttpResponse × Trace
  | none =>
    (⟨400, .obj [("error", .str "No file uploaded")]⟩, ⟨false, none⟩)
  | some f =>
    match c.extractText f.buffer with
    | .error e =>
      (⟨500, .obj [("error", .str (errorMessage e))]⟩, ⟨true, none⟩)
    | .ok pdfData =>
      let resumeText := jsTrim (pdfData.text.getD "")
      if resumeText = "" then
        (⟨400, .obj [("error", .str "No readable text found in PDF (the file might be an image scan).")]⟩,
         ⟨true, none⟩)
      else
        let req := mkGenerateRequest resumeText
        match c.generateContent req with
        | .error e =>
          (⟨500, .obj [("error", .str (errorMessage e))]⟩, ⟨true, some req⟩)
        | .ok jsonResponse =>
          match c.jsonParse jsonResponse with
          | .error e =>
            (⟨500, .obj [("error", .str (errorMessage e))]⟩, ⟨true, some req⟩)
          | .ok analysis =>
            (⟨200, .obj [("analysis", analysis)]⟩, ⟨true, some req⟩)

/-- The multer upload gate (src/server.js lines 20-29): the `fileFilter`
rejects any file whose declared MIME type is not `application/pdf`, and
`limits.fileSize` rejects any file larger than 10 MiB; otherwise the file
(or the absence of one) is handed to the handler. -/
def uploadGate : Option UploadedFile → Except String (Option UploadedFile)
  | none => .ok none
  | some f =>
    if f.mimetype ≠ "application/pdf" then
      .error "Only PDF files are allowed"
    else if f.size > fileSizeLimit then
      .error "File too large"
    else
      .ok (some f)

/-- One full request to POST `/analyze`: the multer gate followed by the
handler. Modelled from the spec: a gate rejection is surfaced as a client
error, status 400 with an `error` body ("Failure: rejects with a client
error (not a server fault) ... Failure at this stage must not invoke
downstream stages"); the middleware mapping from the multer error to that
response lives in framework plumbing outside src/. -/
def processRequest (c : Collaborators) (upload : Option UploadedFile) :
    HttpResponse × Trace :=
  match uploadGate upload with
  | .error msg => (⟨400, .obj [("error", .str msg)]⟩, ⟨false, none⟩)
  | .ok file => analyzeHandler c file

/-- C1: for every request carrying a PDF with extractable (non-empty after
trim) text, when the remote collaborator returns a JSON string that parses
to an object v, the handler responds 200 with body analysis = v exactly,
no transformation of any field. -/
theorem analyze_success_passthrough (c : Collaborators) (f : UploadedFile)
    (pd : PdfData) (s : String) (v : Json)
    (hmime : f.mimetype = "application/pdf")
    (hsize : f.size ≤ fileSizeLimit)
    (hext : c.extractText f.buffer = .ok pd)
    (htext : jsTrim (pd.text.getD "") ≠ "")
    (hgen : c.generateContent (mkGenerateRequest (jsTrim (pd.text.getD ""))) = .ok s)
    (hparse : c.jsonParse s = .ok v) :
    processRequest c (some f) =
      (⟨200, .obj [("analysis", v)]⟩,
       ⟨true, some (mkGenerateRequest (jsTrim (pd.text.getD "")))⟩) := by
  simp [processRequest, uploadGate, analyzeHandler, hmime, hext, htext, hgen,
    hparse, Nat.not_lt.mpr hsize]

/-- Witness for C1 at a concrete request and stubbed collaborators. -/
theorem analyze_success_passthrough_witness :
    processRequest
      ⟨fun _ => .ok ⟨some "hello"⟩, fun _ => .ok "stub",
       fun _ => .ok (.obj [("ats_score", .num 90)])⟩
      (some ⟨"application/pdf", [37, 80, 68, 70]⟩) =
      (⟨200, .obj [("analysis", .obj [("ats_score", .num 90)])]⟩,
       ⟨true, some (mkGenerateRequest (jsTrim ((some "hello").getD "")))⟩) :=
  analyze_success_passthrough _ _ ⟨some "hello"⟩ "stub" _
    rfl (by decide) rfl (by decide) rfl rfl

/-- C2: a declared MIME type other than application/pdf yields status 400
and the extraction collaborator is never invoked. -/
theorem wrong_mime_rejected (c : Collaborators) (f : UploadedFile)
    (hmime : f.mimetype ≠ "application/pdf") :
    (processRequest c (some f)).1.status = 400 ∧
      (processRequest c (some f)).2.extractionInvoked = false := by
  simp [processRequest, uploadGate, hmime]

/-- Witness for C2 at a concrete text/plain upload. -/
theorem wrong_mime_rejected_witness :
    (processRequest
        ⟨fun _ => .ok ⟨some "hello"⟩, fun _ => .ok "stub", fun _ => .ok .null⟩
        (some ⟨"text/plain", [1, 2, 3]⟩)).1.status = 400 ∧
      (processRequest
        ⟨fun _ => .ok ⟨some "hello"⟩, fun _ => .ok "stub", fun _ => .ok .null⟩
        (some ⟨"text/plain", [1, 2, 3]⟩)).2.extractionInvoked = false :=
  wrong_mime_rejected _ _ (by decide)

/-- C3: a file exceeding 10 MiB yields status 400 and the extraction
collaborator is never invoked. -/
theorem oversize_rejected (c : Collaborators) (f : UploadedFile)
    (hsize : f.size > fileSizeLimit) :
    (processRequest c (some f)).1.status = 400 ∧
      (processRequest c (some f)).2.extractionInvoked = false := by
  by_cases hm : f.mimetype = "application/pdf"
  · simp [processRequest, uploadGate, hm, hsize]
  · simp [processRequest, uploadGate, hm]

/-- Witness for C3 at a concrete upload of 10 MiB + 1 bytes. -/
theorem oversize_rejected_witness :
    (processRequest
        ⟨fun _ => .ok ⟨some "hello"⟩, fun _ => .ok "stub", fun _ => .ok .null⟩
        (some ⟨"application/pdf", List.replicate (fileSizeLimit + 1) 0⟩)).1.status = 400 ∧
      (processRequest
        ⟨fun _ => .ok ⟨some "hello"⟩, fun _ => .ok "stub", fun _ => .ok .null⟩
        (some ⟨"application/pdf", List.replicate (fileSizeLimit + 1) 0⟩)).2.extractionInvoked = false :=
  oversize_rejected _ _ (by simp [UploadedFile.size])

/-- C4: a successfully parsed PDF whose text trims to empty yields 400
with the no-readable-text message, and the remote model is never invoked. -/
theorem empty_text_400 (c : Collaborators) (f : UploadedFile) (pd : PdfData)
    (hmime : f.mimetype = "application/pdf")
    (hsize : f.size ≤ fileSizeLimit)
    (hext : c.extractText f.buffer = .ok pd)
    (htext : jsTrim (pd.text.getD "") = "") :
    processRequest c (some f) =
      (⟨400, .obj [("error", .str "No readable text found in PDF (the file might be an image scan).")]⟩,
       ⟨true, none⟩) := by
  simp [processRequest, uploadGate, analyzeHandler, hmime, hext, htext,
    Nat.not_lt.mpr hsize]

/-- Witness for C4 at a whitespace-only extraction result. -/
theorem empty_text_400_witness :
    processRequest
      ⟨fun _ => .ok ⟨some "  "⟩, fun _ => .ok "stub", fun _ => .ok .null⟩
      (some ⟨"application/pdf", [37, 80, 68, 70]⟩) =
      (⟨400, .obj [("error", .str "No readable text found in PDF (the file might be an image scan).")]⟩,
       ⟨true, none⟩) :=
  empty_text_400 _ _ ⟨some "  "⟩ rfl (by decide) rfl (by decide)

/-- C6: a multipart request with no file field yields 400 with an error
body, and neither the extraction collaborator nor the remote model is
invoked. -/
theorem no_file_400 (c : Collaborators) :
    processRequest c none =
      (⟨400, .obj [("error", .str "No file uploaded")]⟩, ⟨false, none⟩) :=
  rfl

/-- Helper: when the upload passes the gate, extraction succeeds and the
trimmed text is non-empty, the trace records extraction and the remote
call, whatever the remote call and JSON.parse then do. -/
theorem trace_of_nonempty_text (c : Collaborators) (f : UploadedFile)
    (pd : PdfData)
    (hmime : f.mimetype = "application/pdf")
    (hsize : f.size ≤ fileSizeLimit)
    (hext : c.extractText f.buffer = .ok pd)
    (htext : jsTrim (pd.text.getD "") ≠ "") :
    (processRequest c (some f)).2 =
      ⟨true, some (mkGenerateRequest (jsTrim (pd.text.getD "")))⟩ := by
  cases hgen : c.generateContent (mkGenerateRequest (jsTrim (pd.text.getD ""))) with
  | error e =>
    simp [processRequest, uploadGate, analyzeHandler, hmime, hext, htext, hgen,
      Nat.not_lt.mpr hsize]
  | ok s =>
    cases hparse : c.jsonParse s with
    | error e =>
      simp [processRequest, uploadGate, analyzeHandler, hmime, hext, htext,
        hgen, hparse, Nat.not_lt.mpr hsize]
    | ok v =>
      simp [processRequest, uploadGate, analyzeHandler, hmime, hext, htext,
        hgen, hparse, Nat.not_lt.mpr hsize]

/-- Helper: any request whose trace shows a remote call passed the gate
with a PDF within the limit, extracted successfully, had non-empty trimmed
text, and sent exactly the handler-built request for that text. -/
theorem remote_request_characterization (c : Collaborators)
    (u : Option UploadedFile) (r : GenerateRequest)
    (hsent : (processRequest c u).2.remoteRequest = some r) :
    ∃ f pd, u = some f ∧ f.mimetype = "application/pdf" ∧
      f.size ≤ fileSizeLimit ∧ c.extractText f.buffer = .ok pd ∧
      jsTrim (pd.text.getD "") ≠ "" ∧
      r = mkGenerateRequest (jsTrim (pd.text.getD "")) := by
  cases u with
  | none => simp [processRequest, uploadGate, analyzeHandler] at hsent
  | some f =>
    by_cases hm : f.mimetype = "application/pdf"
    · by_cases hs : f.size > fileSizeLimit
      · simp [processRequest, uploadGate, hm, hs] at hsent
      · cases hx : c.extractText f.buffer with
        | error e =>
          simp [processRequest, uploadGate, analyzeHandler, hm, hs, hx] at hsent
        | ok pd =>
          by_cases ht : jsTrim (pd.text.getD "") = ""
          · simp [processRequest, uploadGate, analyzeHandler, hm, hs, hx, ht] at hsent
          · have htr := trace_of_nonempty_text c f pd hm (Nat.not_lt.mp hs) hx ht
            rw [htr] at hsent
            exact ⟨f, pd, rfl, hm, Nat.not_lt.mp hs, hx, ht,
              (Option.some.injEq _ _ ▸ hsent).symm⟩
    · simp [processRequest, uploadGate, hm] at hsent

/-- C5: if the remote collaborator throws, or returns a string that is not
valid JSON, the response is 500 with an error body relaying the failure
message, and no analysis key is present. -/
theorem remote_failure_500 (c : Collaborators) (f : UploadedFile)
    (pd : PdfData) (e : String)
    (hmime : f.mimetype = "application/pdf")
    (hsize : f.size ≤ fileSizeLimit)
    (hext : c.extractText f.buffer = .ok pd)
    (htext : jsTrim (pd.text.getD "") ≠ "")
    (hfail :
      c.generateContent (mkGenerateRequest (jsTrim (pd.text.getD ""))) = .error e ∨
      ∃ s, c.generateContent (mkGenerateRequest (jsTrim (pd.text.getD ""))) = .ok s ∧
        c.jsonParse s = .error e)
    (hmsg : e ≠ "") :
    (processRequest c (some f)).1.status = 500 ∧
      (processRequest c (some f)).1.body = .obj [("error", .str e)] ∧
      (processRequest c (some f)).1.body.hasKey "analysis" = false := by
  rcases hfail with hgen | ⟨s, hgen, hparse⟩
  · simp [processRequest, uploadGate, analyzeHandler, hmime, hext, htext, hgen,
      Nat.not_lt.mpr hsize, errorMessage, hmsg, Json.hasKey, Json.lookup,
      List.lookup]
  · simp [processRequest, uploadGate, analyzeHandler, hmime, hext, htext, hgen,
      hparse, Nat.not_lt.mpr hsize, errorMessage, hmsg, Json.hasKey,
      Json.lookup, List.lookup]

/-- Witness for C5 with a remote collaborator that throws. -/
theorem remote_failure_500_witness :
    (processRequest
        ⟨fun _ => .ok ⟨some "hello"⟩, fun _ => .error "boom", fun _ => .ok .null⟩
        (some ⟨"application/pdf", [37, 80, 68, 70]⟩)).1.status = 500 ∧
      (processRequest
        ⟨fun _ => .ok ⟨some "hello"⟩, fun _ => .error "boom", fun _ => .ok .null⟩
        (some ⟨"application/pdf", [37, 80, 68, 70]⟩)).1.body =
        .obj [("error", .str "boom")] ∧
      (processRequest
        ⟨fun _ => .ok ⟨some "hello"⟩, fun _ => .error "boom", fun _ => .ok .null⟩
        (some ⟨"application/pdf", [37, 80, 68, 70]⟩)).1.body.hasKey "analysis" = false :=
  remote_failure_500 _ _ ⟨some "hello"⟩ "boom" rfl (by decide) rfl (by decide)
    (Or.inl rfl) (by decide)

/-- The declared type of a named property of the analysis schema. -/
def schemaPropertyType (name : String) : Option Json :=
  ((resumeAnalysisSchema.lookup "properties").bind
      (fun p => p.lookup name)).bind
    (fun d => d.lookup "type")

/-- The declared element type of a named array property of the schema. -/
def schemaItemsType (name : String) : Option Json :=
  ((resumeAnalysisSchema.lookup "properties").bind
      (fun p => p.lookup name)).bind
    (fun d => (d.lookup "items").bind (fun i => i.lookup "type"))

/-- The property names the analysis schema declares, in order. -/
def schemaPropertyNames : List String :=
  ((resumeAnalysisSchema.lookup "properties").map Json.keys).getD []

/-- C7: every generateContent request sent to the remote model carries the
one process-wide schema constant, which declares exactly ats_score
(NUMBER), structure (STRING), format (STRING), keywords (ARRAY of STRING)
and suggestions (ARRAY of STRING), with ats_score first in the property
ordering. -/
theorem schema_constant_and_sent (c : Collaborators) (u : Option UploadedFile)
    (r : GenerateRequest)
    (hsent : (processRequest c u).2.remoteRequest = some r) :
    r.responseSchema = resumeAnalysisSchema ∧
      schemaPropertyNames =
        ["ats_score", "structure", "format", "keywords", "suggestions"] ∧
      schemaPropertyType "ats_score" = some (.str "NUMBER") ∧
      schemaPropertyType "structure" = some (.str "STRING") ∧
      schemaPropertyType "format" = some (.str "STRING") ∧
      schemaPropertyType "keywords" = some (.str "ARRAY") ∧
      schemaItemsType "keywords" = some (.str "STRING") ∧
      schemaPropertyType "suggestions" = some (.str "ARRAY") ∧
      schemaItemsType "suggestions" = some (.str "STRING") ∧
      resumeAnalysisSchema.lookup "propertyOrdering" =
        some (.arr [.str "ats_score", .str "structure", .str "format",
          .str "keywords", .str "suggestions"]) := by
  obtain ⟨f, pd, _, _, _, _, _, hr⟩ :=
    remote_request_characterization c u r hsent
  subst hr
  exact ⟨rfl, rfl, rfl, rfl, rfl, rfl, rfl, rfl, rfl, rfl⟩

/-- Witness for C7 at a concrete request that reaches the remote call. -/
theorem schema_constant_and_sent_witness :
    (mkGenerateRequest (jsTrim ((some "resume").getD ""))).responseSchema =
        resumeAnalysisSchema ∧
      schemaPropertyNames =
        ["ats_score", "structure", "format", "keywords", "suggestions"] ∧
      schemaPropertyType "ats_score" = some (.str "NUMBER") ∧
      schemaPropertyType "structure" = some (.str "STRING") ∧
      schemaPropertyType "format" = some (.str "STRING") ∧
      schemaPropertyType "keywords" = some (.str "ARRAY") ∧
      schemaItemsType "keywords" = some (.str "STRING") ∧
      schemaPropertyType "suggestions" = some (.str "ARRAY") ∧
      schemaItemsType "suggestions" = some (.str "STRING") ∧
      resumeAnalysisSchema.lookup "propertyOrdering" =
        some (.arr [.str "ats_score", .str "structure", .str "format",
          .str "keywords", .str "suggestions"]) :=
  schema_constant_and_sent
    ⟨fun _ => .ok ⟨some "resume"⟩, fun _ => .ok "stub", fun _ => .ok .null⟩
    (some ⟨"application/pdf", [1]⟩) _ rfl

/-- C8: with deterministic collaborators, two requests with identical file
bytes and declared MIME type produce identical responses and identical
traces (no caching), and when the request passes the gate with non-empty
extracted text, both runs invoke extraction and the remote call. -/
theorem identical_requests_identical (c : Collaborators)
    (f1 f2 : UploadedFile)
    (hbuf : f1.buffer = f2.buffer) (hmime : f1.mimetype = f2.mimetype) :
    processRequest c (some f1) = processRequest c (some f2) ∧
      (∀ pd, f1.mimetype = "application/pdf" → f1.size ≤ fileSizeLimit →
        c.extractText f1.buffer = .ok pd → jsTrim (pd.text.getD "") ≠ "" →
        ((processRequest c (some f1)).2.extractionInvoked = true ∧
          (processRequest c (some f1)).2.remoteRequest.isSome = true ∧
          (processRequest c (some f2)).2.extractionInvoked = true ∧
          (processRequest c (some f2)).2.remoteRequest.isSome = true)) := by
  have hf : f1 = f2 := by
    cases f1; cases f2; simp_all
  subst hf
  refine ⟨rfl, fun pd hm hs hx ht => ?_⟩
  have htr := trace_of_nonempty_text c f1 pd hm hs hx ht
  rw [htr]
  exact ⟨rfl, rfl, rfl, rfl⟩

/-- Witness for C8 at two identical concrete requests. -/
theorem identical_requests_identical_witness :
    processRequest
        ⟨fun _ => .ok ⟨some "text"⟩, fun _ => .ok "stub", fun _ => .ok .null⟩
        (some ⟨"application/pdf", [1, 2]⟩) =
      processRequest
        ⟨fun _ => .ok ⟨some "text"⟩, fun _ => .ok "stub", fun _ => .ok .null⟩
        (some ⟨"application/pdf", [1, 2]⟩) ∧
      (∀ pd,
        (UploadedFile.mk "application/pdf" [1, 2]).mimetype = "application/pdf" →
        (UploadedFile.mk "application/pdf" [1, 2]).size ≤ fileSizeLimit →
        (Collaborators.mk (fun _ => .ok ⟨some "text"⟩) (fun _ => .ok "stub")
            (fun _ => .ok .null)).extractText
            (UploadedFile.mk "application/pdf" [1, 2]).buffer = .ok pd →
        jsTrim (pd.text.getD "") ≠ "" →
        ((processRequest
            ⟨fun _ => .ok ⟨some "text"⟩, fun _ => .ok "stub", fun _ => .ok .null⟩
            (some ⟨"application/pdf", [1, 2]⟩)).2.extractionInvoked = true ∧
          (processRequest
            ⟨fun _ => .ok ⟨some "text"⟩, fun _ => .ok "stub", fun _ => .ok .null⟩
            (some ⟨"application/pdf", [1, 2]⟩)).2.remoteRequest.isSome = true ∧
          (processRequest
            ⟨fun _ => .ok ⟨some "text"⟩, fun _ => .ok "stub", fun _ => .ok .null⟩
            (some ⟨"application/pdf", [1, 2]⟩)).2.extractionInvoked = true ∧
          (processRequest
            ⟨fun _ => .ok ⟨some "text"⟩, fun _ => .ok "stub", fun _ => .ok .null⟩
            (some ⟨"application/pdf", [1, 2]⟩)).2.remoteRequest.isSome = true)) :=
  identical_requests_identical _ _ _ rfl rfl

/-- C9: a response body carrying an analysis object implies the request
had a PDF within the limit, extraction succeeded with non-empty trimmed
text, and the remote call returned a string JSON.parse accepted; the
status is 200 and the body is exactly the analysis object. -/
theorem analysis_implies_success (c : Collaborators) (u : Option UploadedFile)
    (hkey : (processRequest c u).1.body.hasKey "analysis" = true) :
    (processRequest c u).1.status = 200 ∧
      ∃ f pd s v, u = some f ∧ f.mimetype = "application/pdf" ∧
        f.size ≤ fileSizeLimit ∧ c.extractText f.buffer = .ok pd ∧
        jsTrim (pd.text.getD "") ≠ "" ∧
        c.generateContent (mkGenerateRequest (jsTrim (pd.text.getD ""))) = .ok s ∧
        c.jsonParse s = .ok v ∧
        (processRequest c u).1.body = .obj [("analysis", v)] := by
  cases u with
  | none =>
    simp [processRequest, uploadGate, analyzeHandler, Json.hasKey,
      Json.lookup, List.lookup] at hkey
  | some f =>
    by_cases hm : f.mimetype = "application/pdf"
    · by_cases hs : f.size > fileSizeLimit
      · simp [processRequest, uploadGate, hm, hs, Json.hasKey, Json.lookup,
          List.lookup] at hkey
      · cases hx : c.extractText f.buffer with
        | error e =>
          simp [processRequest, uploadGate, analyzeHandler, hm, hs, hx,
            Json.hasKey, Json.lookup, List.lookup] at hkey
        | ok pd =>
          by_cases ht : jsTrim (pd.text.getD "") = ""
          · simp [processRequest, uploadGate, analyzeHandler, hm, hs, hx, ht,
              Json.hasKey, Json.lookup, List.lookup] at hkey
          · cases hg : c.generateContent (mkGenerateRequest (jsTrim (pd.text.getD ""))) with
            | error e =>
              simp [processRequest, uploadGate, analyzeHandler, hm, hs, hx,
                ht, hg, Json.hasKey, Json.lookup, List.lookup] at hkey
            | ok s =>
              cases hp : c.jsonParse s with
              | error e =>
                simp [processRequest, uploadGate, analyzeHandler, hm, hs, hx,
                  ht, hg, hp, Json.hasKey, Json.lookup, List.lookup] at hkey
              | ok v =>
                refine ⟨?_, f, pd, s, v, rfl, hm, Nat.not_lt.mp hs, hx, ht,
                  hg, hp, ?_⟩
                · simp [processRequest, uploadGate, analyzeHandler, hm, hs,
                    hx, ht, hg, hp]
                · simp [processRequest, uploadGate, analyzeHandler, hm, hs,
                    hx, ht, hg, hp]
    · simp [processRequest, uploadGate, hm, Json.hasKey, Json.lookup,
        List.lookup] at hkey

/-- Witness for C9 at a concrete successful request. -/
theorem analysis_implies_success_witness :
    (processRequest
        ⟨fun _ => .ok ⟨some "cv"⟩, fun _ => .ok "out",
         fun _ => .ok (.obj [("ats_score", .num 77)])⟩
        (some ⟨"application/pdf", [9]⟩)).1.status = 200 ∧
      ∃ f pd s v, (some (UploadedFile.mk "application/pdf" [9]) :
            Option UploadedFile) = some f ∧
        f.mimetype = "application/pdf" ∧ f.size ≤ fileSizeLimit ∧
        (Collaborators.mk (fun _ => .ok ⟨some "cv"⟩) (fun _ => .ok "out")
            (fun _ => .ok (.obj [("ats_score", .num 77)]))).extractText
            f.buffer = .ok pd ∧
        jsTrim (pd.text.getD "") ≠ "" ∧
        (Collaborators.mk (fun _ => .ok ⟨some "cv"⟩) (fun _ => .ok "out")
            (fun _ => .ok (.obj [("ats_score", .num 77)]))).generateContent
            (mkGenerateRequest (jsTrim (pd.text.getD ""))) = .ok s ∧
        (Collaborators.mk (fun _ => .ok ⟨some "cv"⟩) (fun _ => .ok "out")
            (fun _ => .ok (.obj [("ats_score", .num 77)]))).jsonParse s =
            .ok v ∧
        (processRequest
            ⟨fun _ => .ok ⟨some "cv"⟩, fun _ => .ok "out",
             fun _ => .ok (.obj [("ats_score", .num 77)])⟩
            (some ⟨"application/pdf", [9]⟩)).1.body =
          .obj [("analysis", v)] :=
  analysis_implies_success _ _ rfl

/-- C10: when extraction resolves but its text field is absent, null or
undefined, the handler coerces it to the empty string and answers the 400
no-readable-text response instead of reaching the 500 catch branch. -/
theorem missing_text_coerced (c : Collaborators) (f : UploadedFile)
    (hmime : f.mimetype = "application/pdf")
    (hsize : f.size ≤ fileSizeLimit)
    (hext : c.extractText f.buffer = .ok ⟨none⟩) :
    processRequest c (some f) =
      (⟨400, .obj [("error", .str "No readable text found in PDF (the file might be an image scan).")]⟩,
       ⟨true, none⟩) := by
  have h0 : jsTrim "" = "" := rfl
  simp [processRequest, uploadGate, analyzeHandler, hmime, hext, h0,
    Nat.not_lt.mpr hsize]

/-- Witness for C10 at a concrete extraction result with no text field. -/
theorem missing_text_coerced_witness :
    processRequest
      ⟨fun _ => .ok ⟨none⟩, fun _ => .ok "stub", fun _ => .ok .null⟩
      (some ⟨"application/pdf", [37]⟩) =
      (⟨400, .obj [("error", .str "No readable text found in PDF (the file might be an image scan).")]⟩,
       ⟨true, none⟩) :=
  missing_text_coerced _ _ rfl (by decide) rfl
